import Mathlib

/-!
Verification of the VRM spring-bone frame handler
(`io_scene_vrm/editor/spring_bone1/handler.py`).

The development shallowly embeds the handler's data and control flow over the
reals: `mathutils.Vector` becomes `Vec3`, the affine action of a Blender 4x4
object/bone matrix becomes `Mat4`, pose bones and spring joints become
records, and the three Python functions `update_spring_joint_pair`,
`update_object` / `update_objects` and `frame_change_pre` become pure
functions that return the state they would have mutated (joint states, the
process-wide flags, log output).  Python lines are cited next to each
definition.
-/

set_option linter.unusedVariables false

namespace SpringBone1

noncomputable section

/-- A 3-component vector over the reals, modelling `mathutils.Vector`. -/
structure Vec3 where
  x : ℝ
  y : ℝ
  z : ℝ

def Vec3.add (a b : Vec3) : Vec3 := ⟨a.x + b.x, a.y + b.y, a.z + b.z⟩

def Vec3.sub (a b : Vec3) : Vec3 := ⟨a.x - b.x, a.y - b.y, a.z - b.z⟩

/-- Scalar multiple (`scalar * Vector` / `Vector * scalar` in mathutils). -/
def Vec3.smul (c : ℝ) (v : Vec3) : Vec3 := ⟨c * v.x, c * v.y, c * v.z⟩

def Vec3.dot (a b : Vec3) : ℝ := a.x * b.x + a.y * b.y + a.z * b.z

/-- Squared euclidean norm. -/
def Vec3.normSq (v : Vec3) : ℝ := v.x * v.x + v.y * v.y + v.z * v.z

/-- `Vector.length`. -/
def Vec3.length (v : Vec3) : ℝ := Real.sqrt v.normSq

instance : Add Vec3 := ⟨Vec3.add⟩

instance : Sub Vec3 := ⟨Vec3.sub⟩

/-- `Vector.normalized()`: mathutils returns the zero vector when the length
is zero, it never divides by zero. -/
def Vec3.normalized (v : Vec3) : Vec3 :=
  if v.length = 0 then ⟨0, 0, 0⟩ else Vec3.smul (1 / v.length) v

/-- The linear (3x3) part of a Blender matrix, row major. -/
structure Mat3 where
  m00 : ℝ
  m01 : ℝ
  m02 : ℝ
  m10 : ℝ
  m11 : ℝ
  m12 : ℝ
  m20 : ℝ
  m21 : ℝ
  m22 : ℝ

def Mat3.mulVec (m : Mat3) (v : Vec3) : Vec3 :=
  ⟨m.m00 * v.x + m.m01 * v.y + m.m02 * v.z,
   m.m10 * v.x + m.m11 * v.y + m.m12 * v.z,
   m.m20 * v.x + m.m21 * v.y + m.m22 * v.z⟩

def Mat3.mul (a b : Mat3) : Mat3 :=
  ⟨a.m00 * b.m00 + a.m01 * b.m10 + a.m02 * b.m20,
   a.m00 * b.m01 + a.m01 * b.m11 + a.m02 * b.m21,
   a.m00 * b.m02 + a.m01 * b.m12 + a.m02 * b.m22,
   a.m10 * b.m00 + a.m11 * b.m10 + a.m12 * b.m20,
   a.m10 * b.m01 + a.m11 * b.m11 + a.m12 * b.m21,
   a.m10 * b.m02 + a.m11 * b.m12 + a.m12 * b.m22,
   a.m20 * b.m00 + a.m21 * b.m10 + a.m22 * b.m20,
   a.m20 * b.m01 + a.m21 * b.m11 + a.m22 * b.m21,
   a.m20 * b.m02 + a.m21 * b.m12 + a.m22 * b.m22⟩

/-- A Blender 4x4 object/bone matrix, restricted to its affine action
(linear part plus translation column; object and bone matrices have the
affine bottom row `0 0 0 1`). -/
structure Mat4 where
  lin : Mat3
  trans : Vec3

/-- Matrix product (`Matrix @ Matrix`). -/
def Mat4.mul (a b : Mat4) : Mat4 :=
  ⟨a.lin.mul b.lin, a.lin.mulVec b.trans + a.trans⟩

/-- `Matrix.to_translation()`. -/
def Mat4.toTranslation (m : Mat4) : Vec3 := m.trans

/-- `Matrix @ Vector`: mathutils applies a 4x4 matrix to a 3d vector as a
point (linear part plus translation). -/
def Mat4.applyPoint (m : Mat4) (v : Vec3) : Vec3 := m.lin.mulVec v + m.trans

/-! ## Data model

`SpringBone1JointPropertyGroup` as read by the handler (`node.value`,
`gravity_dir`, `gravity_power`, `state.prev_tail`, `state.initialized`;
bone names are coded as natural numbers), pose bones as read by the
validator (`pose.bones.get`, `bone.use_connect`, `bone.use_local_location`,
`bone.matrix_local`, `pose_bone.matrix`, the `pose_bone.parent` chain, the
rotation fields the commented-out assignment would touch), armature
objects, and the process-wide flags `global_counts` / `global_initialized`
(handler.py lines 19-20). -/

/-- Per-joint persisted simulation state (`state.prev_tail` starts unset,
`state.initialized` false). -/
structure JointState where
  prev_tail : Option Vec3
  initialized : Bool

/-- The fields of `SpringBone1JointPropertyGroup` the handler reads. -/
structure Joint where
  node : Nat
  gravity_dir : Vec3
  gravity_power : ℝ
  state : JointState

/-- A pose bone's rotation representation (`pose_bone.rotation_mode`). -/
inductive RotMode
  | quaternionMode
  | eulerMode

/-- A quaternion value (`pose_bone.rotation_quaternion`). -/
structure Quat where
  w : ℝ
  x : ℝ
  y : ℝ
  z : ℝ

/-- A pose bone as the handler reads it.  `ancestors` is the list of names
met when walking `pose_bone.parent`, `parent.parent`, ... to the root
(the while loop of handler.py lines 81-86 tests membership in it). -/
structure PoseBone where
  name : Nat
  use_connect : Bool
  use_local_location : Bool
  matrix_local : Mat4
  matrix : Mat4
  ancestors : List Nat
  rotation_mode : RotMode
  rotation_quaternion : Quat

/-- One spring chain (`spring.joints`, in head-to-tail order). -/
structure Spring where
  joints : List Joint

/-- An object as the handler reads it: `obj.type == "ARMATURE"`,
`ext.is_vrm1()`, `obj.matrix_world`, `obj.pose.bones`,
`ext.spring_bone1.springs`. -/
structure VrmObject where
  is_armature : Bool
  is_vrm1 : Bool
  matrix_world : Mat4
  bones : List PoseBone
  springs : List Spring

/-- The log lines the handler can emit (warnings of lines 55-77 and 157,
the error of line 88, the banner of lines 206-208), keyed by bone name. -/
inductive LogEntry
  | warnInitialized
  | warnHeadConnected (bone : Nat)
  | warnHeadNotLocalLocation (bone : Nat)
  | warnTailConnected (bone : Nat)
  | warnTailNotLocalLocation (bone : Nat)
  | errNotParented (head tail : Nat)
  | warnGlobalCount (count : Nat)

/-- `obj.pose.bones.get(name)`. -/
def findBone (bones : List PoseBone) (n : Nat) : Option PoseBone :=
  bones.find? (fun b => b.name == n)

/-! ## update_spring_joint_pair (handler.py lines 136-193)

The function mutates, through the references it is passed, only the
process-wide `global_initialized` flag and `head_spring_joint.state`;
the embedding returns every piece of state the Python function could
reach through its arguments, pose-bone rotation fields included (the
rotation assignment, lines 179-192, is commented out in the source, so
those fields pass through unchanged). -/

/-- Line 164-168: `external = delta_time * Vector(gravity_dir) * gravity_power`. -/
def externalForce (delta_time : ℝ) (gravity_dir : Vec3) (gravity_power : ℝ) : Vec3 :=
  Vec3.smul gravity_power (Vec3.smul delta_time gravity_dir)

/-- Line 170: `Matrix(obj.matrix_world) @ Matrix(head_pose_bone.matrix).to_translation()`
(the method call binds first, so this is the world matrix applied to the
pose translation as a point). -/
def nextHeadWorldLocation (obj_matrix_world head_pose_matrix : Mat4) : Vec3 :=
  obj_matrix_world.applyPoint head_pose_matrix.toTranslation

/-- Line 171: the unconstrained candidate
`next_tail_world_location = current_tail_world_location + external`. -/
def candidateTailWorldLocation (current_tail_world_location : Vec3)
    (delta_time : ℝ) (gravity_dir : Vec3) (gravity_power : ℝ) : Vec3 :=
  current_tail_world_location + externalForce delta_time gravity_dir gravity_power

/-- Line 174, the length constraint:
`next_head + (next_tail - next_head).normalized() * head_tail_world_distance`. -/
def constrainLength (next_head_world_location next_tail_world_location : Vec3)
    (head_tail_world_distance : ℝ) : Vec3 :=
  next_head_world_location +
    Vec3.smul head_tail_world_distance
      (next_tail_world_location - next_head_world_location).normalized

/-- Lines 170-174 composed: the constrained `next_tail_world_location`. -/
def nextTailWorldLocation (obj_matrix_world head_pose_matrix : Mat4)
    (current_tail_world_location : Vec3) (delta_time : ℝ) (gravity_dir : Vec3)
    (gravity_power : ℝ) (head_tail_world_distance : ℝ) : Vec3 :=
  constrainLength (nextHeadWorldLocation obj_matrix_world head_pose_matrix)
    (candidateTailWorldLocation current_tail_world_location delta_time
      gravity_dir gravity_power)
    head_tail_world_distance

/-- All state `update_spring_joint_pair` can reach through its mutable
arguments, as it stands on return. -/
structure PairUpdateResult where
  logs : List LogEntry
  global_initialized : Bool
  head_state : JointState
  tail_state : JointState
  head_rotation_mode : RotMode
  head_rotation_quaternion : Quat
  tail_rotation_mode : RotMode
  tail_rotation_quaternion : Quat

/-- handler.py lines 136-193.  The source takes the whole object but reads
only `obj.matrix_world`.  Lines 155-160: the initialization branch is
guarded by the process-wide `global_initialized` flag (the per-joint check
of line 155 is commented out).  Lines 164-174 compute the integration
locally (`next_tail_world_location` is never stored).  Line 177 stores
`prev_tail = current_tail_world_location` unconditionally.  Lines 179-192
(rotation derivation and assignment) are commented out, so every pose
field and the tail joint's state pass through unchanged. -/
def update_spring_joint_pair (delta_time : ℝ) (obj_matrix_world : Mat4)
    (head_spring_joint : Joint) (head_pose_bone : PoseBone)
    (tail_spring_joint : Joint) (tail_pose_bone : PoseBone)
    (head_tail_world_distance : ℝ) (current_tail_world_location : Vec3)
    (global_initialized_flag : Bool) : PairUpdateResult :=
  let g1 := if !global_initialized_flag then true else global_initialized_flag
  let logs1 : List LogEntry :=
    if !global_initialized_flag then [LogEntry.warnInitialized] else []
  let st1 : JointState :=
    if !global_initialized_flag then
      { head_spring_joint.state with
          prev_tail := some current_tail_world_location, initialized := true }
    else head_spring_joint.state
  let external := externalForce delta_time head_spring_joint.gravity_dir
    head_spring_joint.gravity_power
  let next_head_world_location :=
    nextHeadWorldLocation obj_matrix_world head_pose_bone.matrix
  let next_tail_world_location :=
    candidateTailWorldLocation current_tail_world_location delta_time
      head_spring_joint.gravity_dir head_spring_joint.gravity_power
  let next_tail_constrained :=
    constrainLength next_head_world_location next_tail_world_location
      head_tail_world_distance
  let st2 : JointState :=
    { st1 with prev_tail := some current_tail_world_location }
  { logs := logs1
    global_initialized := g1
    head_state := st2
    tail_state := tail_spring_joint.state
    head_rotation_mode := head_pose_bone.rotation_mode
    head_rotation_quaternion := head_pose_bone.rotation_quaternion
    tail_rotation_mode := tail_pose_bone.rotation_mode
    tail_rotation_quaternion := tail_pose_bone.rotation_quaternion }

/-! ## update_object (handler.py lines 29-133)

Per spring the source first walks `zip(spring.joints, spring.joints[1:])`
collecting an `inputs` list (lines 47-114), then runs
`update_spring_joint_pair` over the collected inputs (lines 116-133).  A
failed parent check `return`s out of `update_object` (line 89), a failed
soft check `continue`s to the next pair. -/

/-- The data appended to `inputs` for an accepted pair (lines 105-114),
plus the head joint's position in `spring.joints` so the functional
embedding can put its updated state back. -/
structure PairInput where
  idx : Nat
  head_spring_joint : Joint
  head_pose_bone : PoseBone
  tail_spring_joint : Joint
  tail_pose_bone : PoseBone
  head_tail_world_distance : ℝ
  current_tail_world_location : Vec3

/-- Lines 91-114: the rest-pose world distance between head and tail
(line 91-98) and the tail's current world position captured before any
pair of the spring is processed (lines 101-103). -/
def mkPairInput (mw : Mat4) (i : Nat) (hj : Joint) (hb : PoseBone)
    (tj : Joint) (tb : PoseBone) : PairInput :=
  { idx := i
    head_spring_joint := hj
    head_pose_bone := hb
    tail_spring_joint := tj
    tail_pose_bone := tb
    head_tail_world_distance :=
      ((mw.mul hb.matrix_local).toTranslation -
        (mw.mul tb.matrix_local).toTranslation).length
    current_tail_world_location := (mw.mul tb.matrix).toTranslation }

/-- Outcome of the per-pair validation body (lines 50-114): skip the pair
with the given warnings (`continue`), abort the whole object update with
the given logs (`return`, line 89), or accept the pair. -/
inductive PairCheck
  | skip (logs : List LogEntry)
  | hardErr (logs : List LogEntry)
  | accept (inp : PairInput)

/-- Lines 50-114 for one `(head_spring_joint, tail_spring_joint)` pair:
a missing bone skips the pair silently (lines 52-53 and 67-68 log
nothing), `use_connect` and `not use_local_location` skip it with a
warning, a tail whose ancestor walk never meets the head name is the hard
error, and otherwise the pair is accepted with its captured geometry. -/
def checkPair (mw : Mat4) (bones : List PoseBone) (i : Nat) (hj tj : Joint) :
    PairCheck :=
  match findBone bones hj.node with
  | none => PairCheck.skip []
  | some hb =>
    if hb.use_connect then PairCheck.skip [LogEntry.warnHeadConnected hj.node]
    else if !hb.use_local_location then
      PairCheck.skip [LogEntry.warnHeadNotLocalLocation hj.node]
    else
      match findBone bones tj.node with
      | none => PairCheck.skip []
      | some tb =>
        if tb.use_connect then
          PairCheck.skip [LogEntry.warnTailConnected tj.node]
        else if !tb.use_local_location then
          PairCheck.skip [LogEntry.warnTailNotLocalLocation tj.node]
        else if tb.ancestors.contains hj.node then
          PairCheck.accept (mkPairInput mw i hj hb tj tb)
        else PairCheck.hardErr [LogEntry.errNotParented hj.node tj.node]

/-- `zip(spring.joints, spring.joints[1:])`, with each pair's head index. -/
def zipPairs : Nat → List Joint → List (Nat × Joint × Joint)
  | i, a :: rest =>
    match rest with
    | [] => []
    | b :: _ => (i, a, b) :: zipPairs (i + 1) rest
  | _, [] => []

/-- Prepend already-emitted warnings to the outcome of the remaining pairs. -/
def withLogs (ls : List LogEntry) :
    Except (List LogEntry) (List LogEntry × List PairInput) →
      Except (List LogEntry) (List LogEntry × List PairInput)
  | Except.ok (l, inps) => Except.ok (ls ++ l, inps)
  | Except.error l => Except.error (ls ++ l)

/-- The collection loop, lines 47-114: the accepted inputs and the warnings
logged on the way, or—on the hard parent error—the logs at the moment of
the aborting `return`. -/
def collectInputs (mw : Mat4) (bones : List PoseBone) :
    List (Nat × Joint × Joint) →
      Except (List LogEntry) (List LogEntry × List PairInput)
  | [] => Except.ok ([], [])
  | (i, hj, tj) :: rest =>
    match checkPair mw bones i hj tj with
    | PairCheck.skip ls => withLogs ls (collectInputs mw bones rest)
    | PairCheck.hardErr ls => Except.error ls
    | PairCheck.accept inp =>
      match collectInputs mw bones rest with
      | Except.ok (l, inps) => Except.ok (l, inp :: inps)
      | Except.error l => Except.error l

/-- The processing loop, lines 116-133: run `update_spring_joint_pair` on
each collected input, threading the process-wide flag and writing each
head joint's new state back into the spring's joint list. -/
def processInputs (dt : ℝ) (mw : Mat4) (g : Bool) (joints : List Joint) :
    List PairInput → Bool × List Joint × List LogEntry
  | [] => (g, joints, [])
  | inp :: rest =>
    match joints.get? inp.idx with
    | some hj =>
      let r := update_spring_joint_pair dt mw hj inp.head_pose_bone
        inp.tail_spring_joint inp.tail_pose_bone inp.head_tail_world_distance
        inp.current_tail_world_location g
      let joints2 := joints.set inp.idx { hj with state := r.head_state }
      let q := processInputs dt mw r.global_initialized joints2 rest
      (q.1, q.2.1, r.logs ++ q.2.2)
    | none => processInputs dt mw g joints rest

/-- Lines 36-133, the loop over `spring_bone1.springs`: per spring collect
then process; the hard parent error `return`s out of `update_object`,
leaving the failing spring and every later spring untouched. -/
def runSprings (dt : ℝ) (mw : Mat4) (bones : List PoseBone) (g : Bool) :
    List Spring → Bool × List Spring × List LogEntry
  | [] => (g, [], [])
  | sp :: rest =>
    match collectInputs mw bones (zipPairs 0 sp.joints) with
    | Except.error logs => (g, sp :: rest, logs)
    | Except.ok (logs, inputs) =>
      let p := processInputs dt mw g sp.joints inputs
      let q := runSprings dt mw bones p.1 rest
      (q.1, Spring.mk p.2.1 :: q.2.1, logs ++ p.2.2 ++ q.2.2)

/-- handler.py lines 29-133: skip non-armatures and non-VRM1 objects,
otherwise run the spring loop.  Returns the process-wide flag, the object
with its joint states as mutated, and the log output. -/
def update_object (dt : ℝ) (g : Bool) (obj : VrmObject) :
    Bool × VrmObject × List LogEntry :=
  if !obj.is_armature then (g, obj, [])
  else if !obj.is_vrm1 then (g, obj, [])
  else
    let r := runSprings dt obj.matrix_world obj.bones g obj.springs
    (r.1, { obj with springs := r.2.1 }, r.2.2)

/-- handler.py lines 24-26: `for obj in bpy.data.objects: update_object(...)`. -/
def update_objects (dt : ℝ) (g : Bool) :
    List VrmObject → Bool × List VrmObject × List LogEntry
  | [] => (g, [], [])
  | o :: rest =>
    let r := update_object dt g o
    let q := update_objects dt r.1 rest
    (q.1, r.2.1 :: q.2.1, r.2.2 ++ q.2.2)

/-- The mutable process state seen by `frame_change_pre`: the one-element
lists `global_counts` and `global_initialized` of lines 19-20 (modelled as
the count and the flag they hold) and the scene's objects. -/
structure Scene where
  global_counts : Nat
  global_initialized : Bool
  objects : List VrmObject

/-- handler.py lines 196-210: the frame tick entry point.  If
`global_counts >= 1` it returns immediately; otherwise it increments the
counter, logs the banner and runs `update_objects(1)` (the
`delta_time`-based call of lines 198-201 is commented out). -/
def frame_change_pre (s : Scene) : Scene × List LogEntry :=
  if s.global_counts ≥ 1 then (s, [])
  else
    let c2 := s.global_counts + 1
    let r := update_objects 1 s.global_initialized s.objects
    ({ global_counts := c2, global_initialized := r.1, objects := r.2.1 },
      LogEntry.warnGlobalCount c2 :: r.2.2)

/-! ## The specification's integration formula

Stated from the specification's words, for comparison with
`candidateTailWorldLocation` (the computation the source performs). -/

/-- The unconstrained candidate tail as the specification states it:
`nextTail = currentTail + inertia + stiffness + external` with
`inertia = (currentTail - prevTail) * (1 - dragForce)`,
`stiffness = deltaTime * (parentWorldRotation . localRotation . boneAxis)
* stiffnessCoefficient` (the rotated rest axis is taken as a vector
argument) and `external = deltaTime * gravityDir * gravityPower`. -/
def specCandidateTail (currentTail prevTail : Vec3)
    (dragForce deltaTime stiffnessCoefficient : ℝ)
    (rotatedBoneAxis gravityDir : Vec3) (gravityPower : ℝ) : Vec3 :=
  currentTail + Vec3.smul (1 - dragForce) (currentTail - prevTail) +
    Vec3.smul (deltaTime * stiffnessCoefficient) rotatedBoneAxis +
    externalForce deltaTime gravityDir gravityPower

/-! ## Concrete scenarios -/

/-- The 3x3 identity. -/
def idMat3 : Mat3 := ⟨1, 0, 0, 0, 1, 0, 0, 0, 1⟩

/-- A pure-translation affine matrix. -/
def mkTransMat (t : Vec3) : Mat4 := ⟨idMat3, t⟩

def idQuat : Quat := ⟨1, 0, 0, 0⟩

/-- A well-configured pose bone at rest/pose translation `p`. -/
def mkBone (n : Nat) (anc : List Nat) (p : Vec3) : PoseBone :=
  { name := n
    use_connect := false
    use_local_location := true
    matrix_local := mkTransMat p
    matrix := mkTransMat p
    ancestors := anc
    rotation_mode := RotMode.quaternionMode
    rotation_quaternion := idQuat }

/-- A joint with fresh (uninitialized) state and inert gravity. -/
def mkFreshJoint (n : Nat) : Joint :=
  { node := n
    gravity_dir := ⟨0, -1, 0⟩
    gravity_power := 0
    state := { prev_tail := none, initialized := false } }

/-- A three-joint chain on bones 1 → 2 → 3, all checks passing. -/
def chainObj : VrmObject :=
  { is_armature := true
    is_vrm1 := true
    matrix_world := mkTransMat ⟨0, 0, 0⟩
    bones := [mkBone 1 [] ⟨0, 0, 0⟩, mkBone 2 [1] ⟨0, 1, 0⟩,
      mkBone 3 [2, 1] ⟨0, 2, 0⟩]
    springs := [Spring.mk [mkFreshJoint 1, mkFreshJoint 2, mkFreshJoint 3]] }

/-- The second-tick scene: the one-shot counter already reads 1 while the
scene still holds the untouched `chainObj`. -/
def tickScene : Scene :=
  { global_counts := 1, global_initialized := false, objects := [chainObj] }

/-- A chain whose tail bone 4 is not a descendant of head bone 1. -/
def badSpring : Spring := Spring.mk [mkFreshJoint 1, mkFreshJoint 4]

/-- A well-formed chain on bones 5 → 6. -/
def goodSpring : Spring := Spring.mk [mkFreshJoint 5, mkFreshJoint 6]

/-- Two chains: the malformed one first, the well-formed one after it. -/
def errObj : VrmObject :=
  { is_armature := true
    is_vrm1 := true
    matrix_world := mkTransMat ⟨0, 0, 0⟩
    bones := [mkBone 1 [] ⟨0, 0, 0⟩, mkBone 4 [] ⟨1, 0, 0⟩,
      mkBone 5 [] ⟨0, 0, 0⟩, mkBone 6 [5] ⟨0, 1, 0⟩]
    springs := [badSpring, goodSpring] }

/-- The same skeleton carrying only the well-formed chain. -/
def goodOnlyObj : VrmObject := { errObj with springs := [goodSpring] }

/-- A chain whose head bone name 1 resolves to no pose bone. -/
def missingBoneObj : VrmObject :=
  { is_armature := true
    is_vrm1 := true
    matrix_world := mkTransMat ⟨0, 0, 0⟩
    bones := [mkBone 2 [1] ⟨0, 1, 0⟩]
    springs := [Spring.mk [mkFreshJoint 1, mkFreshJoint 2]] }

/-- Head bone 1 marked as connected to its parent. -/
def connectedBone1 : PoseBone := { mkBone 1 [] ⟨0, 0, 0⟩ with use_connect := true }

def connectedBones : List PoseBone := [connectedBone1, mkBone 2 [1] ⟨0, 1, 0⟩]

/-- A chain whose head and tail rest translations coincide (zero-length
rest segment) while the topology is valid and the tail has moved in pose. -/
def zeroLenObj : VrmObject :=
  { is_armature := true
    is_vrm1 := true
    matrix_world := mkTransMat ⟨0, 0, 0⟩
    bones := [mkBone 1 [] ⟨0, 0, 0⟩,
      { mkBone 2 [1] ⟨0, 0, 0⟩ with matrix := mkTransMat ⟨0, 1, 0⟩ }]
    springs := [Spring.mk [mkFreshJoint 1, mkFreshJoint 2]] }

/-! ## Lemmas -/

@[simp] theorem Vec3.add_x (a b : Vec3) : (a + b).x = a.x + b.x := rfl

@[simp] theorem Vec3.add_y (a b : Vec3) : (a + b).y = a.y + b.y := rfl

@[simp] theorem Vec3.add_z (a b : Vec3) : (a + b).z = a.z + b.z := rfl

@[simp] theorem Vec3.sub_x (a b : Vec3) : (a - b).x = a.x - b.x := rfl

@[simp] theorem Vec3.sub_y (a b : Vec3) : (a - b).y = a.y - b.y := rfl

@[simp] theorem Vec3.sub_z (a b : Vec3) : (a - b).z = a.z - b.z := rfl

@[simp] theorem Vec3.smul_x (c : ℝ) (v : Vec3) : (Vec3.smul c v).x = c * v.x := rfl

@[simp] theorem Vec3.smul_y (c : ℝ) (v : Vec3) : (Vec3.smul c v).y = c * v.y := rfl

@[simp] theorem Vec3.smul_z (c : ℝ) (v : Vec3) : (Vec3.smul c v).z = c * v.z := rfl

@[ext] theorem Vec3.ext (a b : Vec3) (hx : a.x = b.x) (hy : a.y = b.y)
    (hz : a.z = b.z) : a = b := by
  cases a; cases b; simp_all

theorem Vec3.normSq_nonneg (v : Vec3) : 0 ≤ v.normSq := by
  have h : v.normSq = v.x ^ 2 + v.y ^ 2 + v.z ^ 2 := by
    unfold Vec3.normSq; ring
  rw [h]; positivity

theorem Vec3.normSq_eq_zero_iff (v : Vec3) : v.normSq = 0 ↔ v = ⟨0, 0, 0⟩ := by
  constructor
  · intro h
    unfold Vec3.normSq at h
    have hxx : v.x * v.x = 0 :=
      le_antisymm (by nlinarith [mul_self_nonneg v.y, mul_self_nonneg v.z])
        (mul_self_nonneg v.x)
    have hyy : v.y * v.y = 0 :=
      le_antisymm (by nlinarith [mul_self_nonneg v.x, mul_self_nonneg v.z])
        (mul_self_nonneg v.y)
    have hzz : v.z * v.z = 0 :=
      le_antisymm (by nlinarith [mul_self_nonneg v.x, mul_self_nonneg v.y])
        (mul_self_nonneg v.z)
    have hx := mul_self_eq_zero.mp hxx
    have hy := mul_self_eq_zero.mp hyy
    have hz := mul_self_eq_zero.mp hzz
    cases v; simp_all
  · intro h; subst h; unfold Vec3.normSq; norm_num

theorem Vec3.length_eq_zero_iff (v : Vec3) : v.length = 0 ↔ v = ⟨0, 0, 0⟩ := by
  rw [Vec3.length, Real.sqrt_eq_zero (Vec3.normSq_nonneg v),
    Vec3.normSq_eq_zero_iff]

theorem Vec3.length_smul (c : ℝ) (v : Vec3) :
    (Vec3.smul c v).length = |c| * v.length := by
  have h : (Vec3.smul c v).normSq = c ^ 2 * v.normSq := by
    unfold Vec3.smul Vec3.normSq; ring
  rw [Vec3.length, h, Real.sqrt_mul (sq_nonneg c), Real.sqrt_sq_eq_abs,
    Vec3.length]

theorem Vec3.length_normalized (v : Vec3) (h : v ≠ ⟨0, 0, 0⟩) :
    v.normalized.length = 1 := by
  have hl : v.length ≠ 0 := fun h0 => h ((Vec3.length_eq_zero_iff v).mp h0)
  have hpos : 0 < v.length :=
    lt_of_le_of_ne (Real.sqrt_nonneg _) (Ne.symm hl)
  rw [Vec3.normalized, if_neg hl, Vec3.length_smul,
    abs_of_pos (by positivity : (0 : ℝ) < 1 / v.length)]
  field_simp

theorem Vec3.sub_eq_zero_iff {a b : Vec3} : a - b = ⟨0, 0, 0⟩ ↔ a = b := by
  constructor
  · intro h
    ext
    · have hx := congrArg Vec3.x h
      simpa [sub_eq_zero] using hx
    · have hy := congrArg Vec3.y h
      simpa [sub_eq_zero] using hy
    · have hz := congrArg Vec3.z h
      simpa [sub_eq_zero] using hz
  · intro h; subst h; ext <;> simp

theorem Vec3.add_sub_cancel_left (a w : Vec3) : (a + w) - a = w := by
  ext <;> simp

theorem withLogs_nil (r : Except (List LogEntry) (List LogEntry × List PairInput)) :
    withLogs [] r = r := by
  cases r with
  | ok p => cases p; simp [withLogs]
  | error l => simp [withLogs]

/-! ## Claim theorems -/

/-- C1 (amended): whenever the unconstrained candidate tail differs from the
head's world position, one invocation of the per-pair update produces a
constrained tail whose distance to the head's world position is exactly
`head_tail_world_distance` (a nonnegative number, being computed as a norm
by the caller).  When they coincide, `normalized()` of the zero vector is
the zero vector and the constrained tail collapses onto the head instead. -/
theorem C1_length_constraint_amended (mw hm : Mat4) (cur : Vec3)
    (dt gp L : ℝ) (gd : Vec3) (hL : 0 ≤ L)
    (hne : candidateTailWorldLocation cur dt gd gp ≠ nextHeadWorldLocation mw hm) :
    (nextTailWorldLocation mw hm cur dt gd gp L -
      nextHeadWorldLocation mw hm).length = L := by
  have hd : candidateTailWorldLocation cur dt gd gp -
      nextHeadWorldLocation mw hm ≠ (⟨0, 0, 0⟩ : Vec3) :=
    fun h0 => hne (Vec3.sub_eq_zero_iff.mp h0)
  rw [nextTailWorldLocation, constrainLength, Vec3.add_sub_cancel_left,
    Vec3.length_smul, Vec3.length_normalized _ hd, mul_one, abs_of_nonneg hL]

theorem C1_length_constraint_amended_witness :
    (0 : ℝ) ≤ 2 ∧
    candidateTailWorldLocation ⟨0, 1, 0⟩ 1 ⟨0, -1, 0⟩ 0 ≠
      nextHeadWorldLocation (mkTransMat ⟨0, 0, 0⟩) (mkTransMat ⟨0, 0, 0⟩) ∧
    (nextTailWorldLocation (mkTransMat ⟨0, 0, 0⟩) (mkTransMat ⟨0, 0, 0⟩)
      ⟨0, 1, 0⟩ 1 ⟨0, -1, 0⟩ 0 2 -
      nextHeadWorldLocation (mkTransMat ⟨0, 0, 0⟩) (mkTransMat ⟨0, 0, 0⟩)).length = 2 := by
  have hne : candidateTailWorldLocation ⟨0, 1, 0⟩ 1 ⟨0, -1, 0⟩ 0 ≠
      nextHeadWorldLocation (mkTransMat ⟨0, 0, 0⟩) (mkTransMat ⟨0, 0, 0⟩) := by
    intro h
    have hy := congrArg Vec3.y h
    simp [candidateTailWorldLocation, externalForce, nextHeadWorldLocation,
      Mat4.applyPoint, Mat4.toTranslation, Mat3.mulVec, mkTransMat, idMat3] at hy
  exact ⟨by norm_num, hne,
    C1_length_constraint_amended (mkTransMat ⟨0, 0, 0⟩) (mkTransMat ⟨0, 0, 0⟩)
      ⟨0, 1, 0⟩ 1 0 2 ⟨0, -1, 0⟩ (by norm_num) hne⟩

/-- C1 (counterexample): with the candidate tail exactly at the head's
world position (here: current tail at the head, gravity power 0) and rest
distance 1, the constrained tail collapses onto the head and the resulting
head-to-tail distance is 0, not the bone length — the claimed equality
fails for these integration inputs. -/
theorem C1_counterexample :
    (nextTailWorldLocation (mkTransMat ⟨0, 0, 0⟩) (mkTransMat ⟨0, 0, 0⟩)
      ⟨0, 0, 0⟩ 1 ⟨0, -1, 0⟩ 0 1 -
      nextHeadWorldLocation (mkTransMat ⟨0, 0, 0⟩) (mkTransMat ⟨0, 0, 0⟩)).length ≠ 1 := by
  have hhead : nextHeadWorldLocation (mkTransMat ⟨0, 0, 0⟩) (mkTransMat ⟨0, 0, 0⟩) =
      ⟨0, 0, 0⟩ := by
    ext <;> simp [nextHeadWorldLocation, Mat4.applyPoint, Mat4.toTranslation,
      Mat3.mulVec, mkTransMat, idMat3]
  have hcand : candidateTailWorldLocation ⟨0, 0, 0⟩ 1 ⟨0, -1, 0⟩ 0 =
      ⟨0, 0, 0⟩ := by
    ext <;> simp [candidateTailWorldLocation, externalForce]
  have hsub : (⟨0, 0, 0⟩ : Vec3) - ⟨0, 0, 0⟩ = ⟨0, 0, 0⟩ := by ext <;> simp
  have hnorm : (⟨0, 0, 0⟩ : Vec3).normalized = ⟨0, 0, 0⟩ := by
    rw [Vec3.normalized, if_pos ((Vec3.length_eq_zero_iff _).mpr rfl)]
  have hcollapse : (⟨0, 0, 0⟩ : Vec3) + Vec3.smul 1 ⟨0, 0, 0⟩ - ⟨0, 0, 0⟩ =
      ⟨0, 0, 0⟩ := by ext <;> simp
  rw [nextTailWorldLocation, hhead, hcand, constrainLength, hsub, hnorm,
    hcollapse, (Vec3.length_eq_zero_iff _).mpr rfl]
  norm_num

/-- C2: the claim states the unconstrained candidate is
`currentTail + inertia + stiffness + external`; the source computes only
`currentTail + external` (handler.py line 171; the `prev_tail` read of
line 162 is commented out and no stiffness term exists).  At current tail
(0,0,0), previous tail (1,0,0), drag 0, deltaTime 1 and zero gravity the
two formulas differ. -/
theorem C2_integrator_divergence :
    candidateTailWorldLocation ⟨0, 0, 0⟩ 1 ⟨0, 0, 0⟩ 0 ≠
      specCandidateTail ⟨0, 0, 0⟩ ⟨1, 0, 0⟩ 0 1 0 ⟨0, 0, 0⟩ ⟨0, 0, 0⟩ 0 := by
  intro h
  have hx := congrArg Vec3.x h
  simp [candidateTailWorldLocation, specCandidateTail, externalForce] at hx

/-- C3: the per-pair update never writes the head pose bone's rotation or
rotation mode — the rotation derivation and assignment (handler.py lines
179-192) are commented out, so the pose fields pass through unchanged for
every input; the claim's asserted rotation write does not happen. -/
theorem C3_no_rotation_write (dt : ℝ) (mw : Mat4) (hj : Joint) (hb : PoseBone)
    (tj : Joint) (tb : PoseBone) (L : ℝ) (cur : Vec3) (g : Bool) :
    (update_spring_joint_pair dt mw hj hb tj tb L cur g).head_rotation_mode =
      hb.rotation_mode ∧
    (update_spring_joint_pair dt mw hj hb tj tb L cur g).head_rotation_quaternion =
      hb.rotation_quaternion := ⟨rfl, rfl⟩

/-- C8: with deltaTime > 0 and a non-zero gravity vector, the component of
the unconstrained candidate's displacement from the current tail along the
gravity vector is strictly increasing in `gravity_power`. -/
theorem C8_monotone_gravity (cur gd : Vec3) (dt gp1 gp2 : ℝ)
    (hdt : 0 < dt) (hgd : gd ≠ ⟨0, 0, 0⟩) (hlt : gp1 < gp2) :
    Vec3.dot (candidateTailWorldLocation cur dt gd gp1 - cur) gd <
      Vec3.dot (candidateTailWorldLocation cur dt gd gp2 - cur) gd := by
  have hS : 0 < gd.normSq :=
    lt_of_le_of_ne (Vec3.normSq_nonneg gd)
      (fun h0 => hgd ((Vec3.normSq_eq_zero_iff gd).mp h0.symm))
  have key : ∀ gp : ℝ,
      Vec3.dot (candidateTailWorldLocation cur dt gd gp - cur) gd =
        dt * gp * gd.normSq := by
    intro gp
    simp only [candidateTailWorldLocation, externalForce, Vec3.dot,
      Vec3.normSq, Vec3.smul_x, Vec3.smul_y, Vec3.smul_z, Vec3.add_x,
      Vec3.add_y, Vec3.add_z, Vec3.sub_x, Vec3.sub_y, Vec3.sub_z]
    ring
  rw [key gp1, key gp2]
  exact (mul_lt_mul_right hS).mpr ((mul_lt_mul_left hdt).mpr hlt)

theorem C8_monotone_gravity_witness :
    (0 : ℝ) < 1 ∧ (⟨0, -1, 0⟩ : Vec3) ≠ ⟨0, 0, 0⟩ ∧ (0 : ℝ) < 1 ∧
    Vec3.dot (candidateTailWorldLocation ⟨0, 0, 0⟩ 1 ⟨0, -1, 0⟩ 0 - ⟨0, 0, 0⟩)
        ⟨0, -1, 0⟩ <
      Vec3.dot (candidateTailWorldLocation ⟨0, 0, 0⟩ 1 ⟨0, -1, 0⟩ 1 - ⟨0, 0, 0⟩)
        ⟨0, -1, 0⟩ := by
  have hgd : (⟨0, -1, 0⟩ : Vec3) ≠ ⟨0, 0, 0⟩ := by
    intro h
    have hy := congrArg Vec3.y h
    norm_num at hy
  exact ⟨by norm_num, hgd, by norm_num,
    C8_monotone_gravity ⟨0, 0, 0⟩ ⟨0, -1, 0⟩ 1 0 1 (by norm_num) hgd
      (by norm_num)⟩

/-- C10: the per-pair update's whole frame effect — the process-wide flag
ends true (set on the first invocation ever, kept afterwards), the head
joint's `prev_tail` is set to the captured tail position (so repeated
invocations with the same capture leave it at that capture), its
`initialized` flag is set only when the process-wide flag was still unset,
and the tail joint's state and both bones' rotation fields pass through
untouched. -/
theorem C10_pair_update_frame_effect (dt : ℝ) (mw : Mat4) (hj : Joint)
    (hb : PoseBone) (tj : Joint) (tb : PoseBone) (L : ℝ) (cur : Vec3)
    (g : Bool) :
    (update_spring_joint_pair dt mw hj hb tj tb L cur g).global_initialized =
      true ∧
    (update_spring_joint_pair dt mw hj hb tj tb L cur g).head_state.prev_tail =
      some cur ∧
    (update_spring_joint_pair dt mw hj hb tj tb L cur g).head_state.initialized =
      (if g then hj.state.initialized else true) ∧
    (update_spring_joint_pair dt mw hj hb tj tb L cur g).tail_state =
      tj.state ∧
    (update_spring_joint_pair dt mw hj hb tj tb L cur g).head_rotation_mode =
      hb.rotation_mode ∧
    (update_spring_joint_pair dt mw hj hb tj tb L cur g).head_rotation_quaternion =
      hb.rotation_quaternion ∧
    (update_spring_joint_pair dt mw hj hb tj tb L cur g).tail_rotation_mode =
      tb.rotation_mode ∧
    (update_spring_joint_pair dt mw hj hb tj tb L cur g).tail_rotation_quaternion =
      tb.rotation_quaternion := by
  cases g <;> exact ⟨rfl, rfl, rfl, rfl, rfl, rfl, rfl, rfl⟩

/-- C4: one spring of three fresh joints, first frame, process flag unset:
after one object update the first head joint's `initialized` flag is true
but the second head joint's is still false (the global one-shot guard of
handler.py line 156 enters the initialization branch only for the first
pair ever processed), although both pairs were processed (both heads'
`prev_tail` got written). -/
theorem C4_second_joint_not_initialized :
    ((update_object 1 false chainObj).2.1.springs.map
      (fun sp => sp.joints.map (fun j => j.state.initialized))) =
      [[true, false, false]] ∧
    ((update_object 1 false chainObj).2.1.springs.map
      (fun sp => sp.joints.map (fun j => j.state.prev_tail.isSome))) =
      [[true, true, false]] := ⟨rfl, rfl⟩

/-- Helper for C5: if every chain before `sf` validates without the hard
parent error and `sf` hits it, the spring loop processes exactly the
chains before `sf` (as it would without `sf` present), returns `sf` and
every later chain untouched, and appends the error logs. -/
theorem runSprings_hard_error (dt : ℝ) (mw : Mat4) (bones : List PoseBone)
    (sf : Spring) (s2 : List Spring) (elogs : List LogEntry)
    (h2 : collectInputs mw bones (zipPairs 0 sf.joints) = Except.error elogs) :
    ∀ (s1 : List Spring) (g : Bool),
      (∀ sp ∈ s1, ∃ l inps,
        collectInputs mw bones (zipPairs 0 sp.joints) = Except.ok (l, inps)) →
      runSprings dt mw bones g (s1 ++ sf :: s2) =
        ((runSprings dt mw bones g s1).1,
         (runSprings dt mw bones g s1).2.1 ++ sf :: s2,
         (runSprings dt mw bones g s1).2.2 ++ elogs) := by
  intro s1
  induction s1 with
  | nil =>
    intro g _
    simp [runSprings, h2]
  | cons sp rest ih =>
    intro g hall
    obtain ⟨l, inps, hsp⟩ := hall sp (by simp)
    have hrest : ∀ spx ∈ rest, ∃ l2 inps2,
        collectInputs mw bones (zipPairs 0 spx.joints) = Except.ok (l2, inps2) :=
      fun spx hx => hall spx (by simp [hx])
    simp only [List.cons_append, runSprings, hsp, List.append_eq]
    rw [ih _ hrest]
    simp [List.append_assoc]

/-- C5 (amended): a tail that is not a descendant of its head makes
`update_object` log the hard chain error and `return` (handler.py line
89): the failing chain — all of its pairs, the ones collected before the
failure included — and every chain listed after it in the same object are
left untouched for this frame, while chains processed before it keep
exactly the update they would have received anyway; no pose-bone data is
touched and no exception escapes.  Other objects are unaffected because
`update_objects` calls `update_object` once per object. -/
theorem C5_hard_error_aborts_object (dt : ℝ) (g : Bool) (mw : Mat4)
    (bones : List PoseBone) (s1 : List Spring) (sf : Spring) (s2 : List Spring)
    (elogs : List LogEntry)
    (h1 : ∀ sp ∈ s1, ∃ l inps,
      collectInputs mw bones (zipPairs 0 sp.joints) = Except.ok (l, inps))
    (h2 : collectInputs mw bones (zipPairs 0 sf.joints) = Except.error elogs) :
    update_object dt g (VrmObject.mk true true mw bones (s1 ++ sf :: s2)) =
      ((runSprings dt mw bones g s1).1,
       VrmObject.mk true true mw bones
         ((runSprings dt mw bones g s1).2.1 ++ sf :: s2),
       (runSprings dt mw bones g s1).2.2 ++ elogs) := by
  simp only [update_object, Bool.not_true, Bool.false_eq_true, if_false]
  rw [runSprings_hard_error dt mw bones sf s2 elogs h2 s1 g h1]

theorem C5_hard_error_aborts_object_witness :
    update_object 1 true
        (VrmObject.mk true true (mkTransMat ⟨0, 0, 0⟩) errObj.bones
          [badSpring, goodSpring]) =
      (true,
       VrmObject.mk true true (mkTransMat ⟨0, 0, 0⟩) errObj.bones
         [badSpring, goodSpring],
       [LogEntry.errNotParented 1 4]) := by
  have h := C5_hard_error_aborts_object 1 true (mkTransMat ⟨0, 0, 0⟩)
    errObj.bones [] badSpring [goodSpring] [LogEntry.errNotParented 1 4]
    (by simp) rfl
  simpa [runSprings] using h

/-- C5 (counterexample): in `errObj` the malformed chain comes first and
the well-formed chain after it; the object update leaves the well-formed
chain's joints untouched (no `prev_tail` written) and logs the hard error,
whereas the same well-formed chain alone does get its head joint updated —
the hard error does not leave other chains of the frame unaffected. -/
theorem C5_counterexample :
    ((update_object 1 true errObj).2.1.springs.map
      (fun sp => sp.joints.map (fun j => j.state.prev_tail.isSome))) =
      [[false, false], [false, false]] ∧
    (update_object 1 true errObj).2.2 = [LogEntry.errNotParented 1 4] ∧
    ((update_object 1 true goodOnlyObj).2.1.springs.map
      (fun sp => sp.joints.map (fun j => j.state.prev_tail.isSome))) =
      [[true, false]] := ⟨rfl, rfl, rfl⟩

/-- C6: the frame tick entry point is a no-op from its second invocation
on: with the one-shot counter already at 1 (`global_counts >= 1`,
handler.py lines 202-203) the scene — still holding a fresh, unprocessed
chain — is returned unchanged and nothing is logged, although a full pass
over the same objects would have processed the chain (second conjunct). -/
theorem C6_second_tick_noop :
    frame_change_pre tickScene = (tickScene, []) ∧
    ((update_objects 1 false [chainObj]).2.1.map
      (fun o => o.springs.map (fun sp => sp.joints.map
        (fun j => j.state.prev_tail.isSome)))) = [[[true, true, false]]] :=
  ⟨rfl, rfl⟩

/-- C7 (amended): a connected bone or a bone without independent local
translation makes the validator log one warning and skip just that pair,
the remaining pairs being collected exactly as without it; a missing head
or tail bone skips the pair silently, with no log at all (handler.py lines
52-53 and 67-68 `continue` without logging).  A skipped pair contributes
no input, so no joint state is written for it. -/
theorem C7_soft_skip_amended (mw : Mat4) (bones : List PoseBone) (i : Nat)
    (hj tj : Joint) (rest : List (Nat × Joint × Joint)) :
    (findBone bones hj.node = none →
      collectInputs mw bones ((i, hj, tj) :: rest) =
        collectInputs mw bones rest) ∧
    (∀ hb, findBone bones hj.node = some hb → hb.use_connect = true →
      collectInputs mw bones ((i, hj, tj) :: rest) =
        withLogs [LogEntry.warnHeadConnected hj.node]
          (collectInputs mw bones rest)) ∧
    (∀ hb, findBone bones hj.node = some hb → hb.use_connect = false →
        hb.use_local_location = false →
      collectInputs mw bones ((i, hj, tj) :: rest) =
        withLogs [LogEntry.warnHeadNotLocalLocation hj.node]
          (collectInputs mw bones rest)) ∧
    (∀ hb, findBone bones hj.node = some hb → hb.use_connect = false →
        hb.use_local_location = true → findBone bones tj.node = none →
      collectInputs mw bones ((i, hj, tj) :: rest) =
        collectInputs mw bones rest) ∧
    (∀ hb tb, findBone bones hj.node = some hb → hb.use_connect = false →
        hb.use_local_location = true → findBone bones tj.node = some tb →
        tb.use_connect = true →
      collectInputs mw bones ((i, hj, tj) :: rest) =
        withLogs [LogEntry.warnTailConnected tj.node]
          (collectInputs mw bones rest)) ∧
    (∀ hb tb, findBone bones hj.node = some hb → hb.use_connect = false →
        hb.use_local_location = true → findBone bones tj.node = some tb →
        tb.use_connect = false → tb.use_local_location = false →
      collectInputs mw bones ((i, hj, tj) :: rest) =
        withLogs [LogEntry.warnTailNotLocalLocation tj.node]
          (collectInputs mw bones rest)) := by
  refine ⟨?_, ?_, ?_, ?_, ?_, ?_⟩
  · intro h
    simp [collectInputs, checkPair, h, withLogs_nil]
  · intro hb h1 h2
    simp [collectInputs, checkPair, h1, h2]
  · intro hb h1 h2 h3
    simp [collectInputs, checkPair, h1, h2, h3]
  · intro hb h1 h2 h3 h4
    simp [collectInputs, checkPair, h1, h2, h3, h4, withLogs_nil]
  · intro hb tb h1 h2 h3 h4 h5
    simp [collectInputs, checkPair, h1, h2, h3, h4, h5]
  · intro hb tb h1 h2 h3 h4 h5 h6
    simp [collectInputs, checkPair, h1, h2, h3, h4, h5, h6]

theorem C7_soft_skip_amended_witness :
    collectInputs (mkTransMat ⟨0, 0, 0⟩) connectedBones
        [(0, mkFreshJoint 1, mkFreshJoint 2)] =
      withLogs [LogEntry.warnHeadConnected 1]
        (collectInputs (mkTransMat ⟨0, 0, 0⟩) connectedBones []) :=
  (C7_soft_skip_amended (mkTransMat ⟨0, 0, 0⟩) connectedBones 0
    (mkFreshJoint 1) (mkFreshJoint 2) []).2.1 connectedBone1 rfl rfl

/-- C7 (counterexample): with the head bone missing from the skeleton the
object update skips the pair but logs nothing at all — the claim's "a
warning is logged" fails for the missing-bone condition. -/
theorem C7_counterexample :
    update_object 1 true missingBoneObj = (true, missingBoneObj, []) := rfl

/-- C9 (amended): the validator performs no zero-length check — a pair
whose head and tail rest positions coincide is accepted exactly like any
other (acceptance depends only on bone resolution, the two flags and the
ancestor walk, never on geometry) — and the update then proceeds without
producing any undefined value: with `head_tail_world_distance = 0` the
length constraint returns exactly the head position, because scaling the
(possibly zero-vector) normalization result by 0 is the zero vector. -/
theorem C9_zero_length_amended (mw : Mat4) (bones : List PoseBone) (i : Nat)
    (hj tj : Joint) (hb tb : PoseBone)
    (h1 : findBone bones hj.node = some hb) (h2 : hb.use_connect = false)
    (h3 : hb.use_local_location = true)
    (h4 : findBone bones tj.node = some tb) (h5 : tb.use_connect = false)
    (h6 : tb.use_local_location = true)
    (h7 : tb.ancestors.contains hj.node = true) :
    checkPair mw bones i hj tj = PairCheck.accept (mkPairInput mw i hj hb tj tb) ∧
    ∀ head cand : Vec3, constrainLength head cand 0 = head := by
  constructor
  · have h7m : hj.node ∈ tb.ancestors := by simpa using h7
    simp [checkPair, h1, h2, h3, h4, h5, h6, h7m]
  · intro head cand
    ext <;> simp [constrainLength]

theorem C9_zero_length_amended_witness :
    checkPair (mkTransMat ⟨0, 0, 0⟩) zeroLenObj.bones 0 (mkFreshJoint 1)
        (mkFreshJoint 2) =
      PairCheck.accept (mkPairInput (mkTransMat ⟨0, 0, 0⟩) 0 (mkFreshJoint 1)
        (mkBone 1 [] ⟨0, 0, 0⟩) (mkFreshJoint 2)
        { mkBone 2 [1] ⟨0, 0, 0⟩ with matrix := mkTransMat ⟨0, 1, 0⟩ }) ∧
    constrainLength ⟨1, 2, 3⟩ ⟨4, 5, 6⟩ 0 = ⟨1, 2, 3⟩ :=
  ⟨(C9_zero_length_amended (mkTransMat ⟨0, 0, 0⟩) zeroLenObj.bones 0
      (mkFreshJoint 1) (mkFreshJoint 2) (mkBone 1 [] ⟨0, 0, 0⟩)
      { mkBone 2 [1] ⟨0, 0, 0⟩ with matrix := mkTransMat ⟨0, 1, 0⟩ }
      rfl rfl rfl rfl rfl rfl rfl).1,
   (C9_zero_length_amended (mkTransMat ⟨0, 0, 0⟩) zeroLenObj.bones 0
      (mkFreshJoint 1) (mkFreshJoint 2) (mkBone 1 [] ⟨0, 0, 0⟩)
      { mkBone 2 [1] ⟨0, 0, 0⟩ with matrix := mkTransMat ⟨0, 1, 0⟩ }
      rfl rfl rfl rfl rfl rfl rfl).2 ⟨1, 2, 3⟩ ⟨4, 5, 6⟩⟩

/-- C9 (counterexample): a chain whose head and tail rest positions
coincide (zero-length rest segment) is not treated as a configuration
error: the object update emits no log at all and proceeds to process the
pair, writing the head joint's `prev_tail`. -/
theorem C9_counterexample :
    (update_object 1 true zeroLenObj).2.2 = ([] : List LogEntry) ∧
    ((update_object 1 true zeroLenObj).2.1.springs.map
      (fun sp => sp.joints.map (fun j => j.state.prev_tail.isSome))) =
      [[true, false]] := ⟨rfl, rfl⟩

end

end SpringBone1
